import Mathlib

/-!
Shallow embedding of the `syre` Python client resource model
(`src/lang/python/src/syre/resources.py` and `common.py`): the Container and
Asset entities, their lazy cache-aware accessors (`assets`, `children`,
`parent`), and the wire-record deserializer (`dict_to_container`,
`dict_to_asset`).

Modelling conventions:
- JSON values delivered by `recv_json` are `Jsonv`; Python `None` and JSON
  `null` are both `Jsonv.null` (Python `json` cannot distinguish them).
- Each remote-touching accessor performs at most one blocking send followed
  by one blocking receive, so an accessor call is modelled as a pure step
  function taking the process environment, the connector's response for this
  round trip, and a fresh object address, and returning the Python outcome
  (normal result or raised error), the post-state of the receiver, and the
  list of requests sent during the call.
- Python object identity is modelled by an address (`Addr`) carried by every
  Container; the deserializer allocates a fresh address for each Container it
  builds, and an Asset's owning-container reference stores that address.
- Python runtime failures that the source does not itself raise (attribute
  access on `None`, `in` on a non-container, missing dict key) are modelled
  as the distinct error values `attributeError`, `typeError`, `keyError`.
-/

namespace Syre

/-- JSON values as produced by `recv_json` / consumed by `send_json`.
Python `None` and JSON `null` both appear as `Jsonv.null`. -/
inductive Jsonv where
  | null
  | bool (b : Bool)
  | num (n : Int)
  | str (s : String)
  | arr (items : List Jsonv)
  | obj (fields : List (String × Jsonv))

/-- Python object identity: the address of a heap object. -/
abbrev Addr := Nat

/-- Modelled from the spec: the `Database` session class is not under `src`
(only `resources.py` and `common.py` are); per spec section 6 the session
object binds a project id, a root id, and the connector.  The source reads
the root id through two attribute names, `_root_id` (root sentinel check)
and `_root` (argument of the `Graph.Parent` request); per the spec both
denote the single configured root id. -/
structure Database where
  project : String
  root : String

/-- The `_project` attribute of the session object. -/
def Database._project (db : Database) : String := db.project

/-- The `_root_id` attribute of the session object (the configured root id). -/
def Database._root_id (db : Database) : String := db.root

/-- The `_root` attribute of the session object (the configured root id). -/
def Database._root (db : Database) : String := db.root

/-- Errors a modelled call can raise.  `config`, `remote` and `protocolErr`
are the `RuntimeError`s raised explicitly by the source (the spec's
Configuration / Remote / Protocol error taxonomy); `typeError`, `keyError`
and `attributeError` are Python runtime errors arising from operations the
source performs without checking. -/
inductive PyError where
  | config (msg : String)
  | remote (context : String) (payload : Jsonv)
  | protocolErr (msg : String)
  | typeError
  | keyError
  | attributeError

/-- The four request shapes sent over the connector (spec section 6). -/
inductive Request where
  | containerGetByIdForAnalysis (project : String) (container : Jsonv)
  | graphChildren (project : String) (parent : Jsonv)
  | graphParent (project : String) (root : String) (container : Jsonv)
  | assetParent (project : String) (asset : Jsonv)

/-- Python `==` between a stored JSON value and a Lean string (the source
compares `self._rid == self._db._root_id`, where the root id is a string):
equal strings compare equal, any non-string JSON value compares unequal. -/
def pyEqStr (v : Jsonv) (s : String) : Bool :=
  match v with
  | .str t => t == s
  | _ => false

/-- Python substring test `pat in s` for strings. -/
def strContainsSub (s pat : String) : Bool :=
  (s.splitOn pat).length > 1

/-- Python membership test `key in v` on a received JSON value: key lookup
for a dict, element equality for a list, substring for a string, and a
`TypeError` for `None`, booleans and numbers. -/
def pyContains (key : String) (v : Jsonv) : Except PyError Bool :=
  match v with
  | .obj fields => .ok (fields.any (fun kv => kv.1 == key))
  | .arr items => .ok (items.any (fun x => pyEqStr x key))
  | .str s => .ok (strContainsSub s key)
  | _ => .error .typeError

/-- Python subscript `v[key]` on a received JSON value: dict lookup raising
`KeyError` when the key is absent, `TypeError` on any non-dict. -/
def pyGet (key : String) (v : Jsonv) : Except PyError Jsonv :=
  match v with
  | .obj fields =>
    match fields.find? (fun kv => kv.1 == key) with
    | some kv => .ok kv.2
    | none => .error .keyError
  | _ => .error .typeError

/-- Python iteration over a received JSON value (`for x in v`): a list
yields its elements, a dict its keys, a string its characters; `None`,
booleans and numbers raise `TypeError`. -/
def pyIterate (v : Jsonv) : Except PyError (List Jsonv) :=
  match v with
  | .arr items => .ok items
  | .obj fields => .ok (fields.map (fun kv => Jsonv.str kv.1))
  | .str s => .ok (s.toList.map (fun ch => Jsonv.str (String.mk [ch])))
  | _ => .error .typeError

/-- Python `v is None` on a received JSON value. -/
def jsonIsNull (v : Jsonv) : Bool :=
  match v with
  | .null => true
  | _ => false

/-- The process environment (`os.getenv`). -/
abbrev EnvMap := String → Option String

/-- `common.CONTAINER_ID_KEY`. -/
def CONTAINER_ID_KEY : String := "SYRE_CONTAINER_ID"

/-- `common.dev_mode`: the script runs in dev ("live") mode exactly when the
process-scoped container-identity environment variable is absent.  It is a
function of the current environment, re-evaluated at each call site. -/
def dev_mode (env : EnvMap) : Bool :=
  (env CONTAINER_ID_KEY).isNone

/-- The `Asset` entity: identity and property attributes fixed at
construction, a non-owning connector reference `_db`, and an optional
owning-container reference `_parent` (stored as the owning Container's
address). -/
structure Asset where
  _rid : Jsonv
  _file : Jsonv
  _name : Jsonv
  _type : Jsonv
  _description : Jsonv
  _tags : Jsonv
  _metadata : Jsonv
  _db : Option Database
  _parent : Option Addr

/-- The `Container` entity: an object identity `objId`, identity and
property attributes, the owned asset list cache `_assets`, a non-owning
connector reference `_db`, and the parent cache (`_parent`, `_parent_set`).
Recursive because the parent cache stores a Container. -/
inductive Container where
  | mk (objId : Addr) (rid name type description tags metadata : Jsonv)
      (assets : List Asset) (db : Option Database)
      (parent : Option Container) (parent_set : Bool)

/-- Object identity of this Container (models the Python object address). -/
def Container.objId : Container → Addr
  | .mk a _ _ _ _ _ _ _ _ _ _ => a

/-- The `_rid` attribute. -/
def Container._rid : Container → Jsonv
  | .mk _ r _ _ _ _ _ _ _ _ _ => r

/-- The `_name` attribute. -/
def Container._name : Container → Jsonv
  | .mk _ _ n _ _ _ _ _ _ _ _ => n

/-- The `_type` attribute. -/
def Container._type : Container → Jsonv
  | .mk _ _ _ t _ _ _ _ _ _ _ => t

/-- The `_description` attribute. -/
def Container._description : Container → Jsonv
  | .mk _ _ _ _ d _ _ _ _ _ _ => d

/-- The `_tags` attribute. -/
def Container._tags : Container → Jsonv
  | .mk _ _ _ _ _ tg _ _ _ _ _ => tg

/-- The `_metadata` attribute. -/
def Container._metadata : Container → Jsonv
  | .mk _ _ _ _ _ _ m _ _ _ _ => m

/-- The `_assets` attribute (the cached owned asset list). -/
def Container._assets : Container → List Asset
  | .mk _ _ _ _ _ _ _ as _ _ _ => as

/-- The `_db` attribute (the non-owning connector/session reference). -/
def Container._db : Container → Option Database
  | .mk _ _ _ _ _ _ _ _ db _ _ => db

/-- The `_parent` attribute (the parent-cache value slot). -/
def Container._parent : Container → Option Container
  | .mk _ _ _ _ _ _ _ _ _ p _ => p

/-- The `_parent_set` attribute (the parent-cache resolution flag). -/
def Container._parent_set : Container → Bool
  | .mk _ _ _ _ _ _ _ _ _ _ ps => ps

/-- `Container.name` read-only property. -/
def Container.name (c : Container) : Jsonv := c._name

/-- `Container.type` read-only property. -/
def Container.type (c : Container) : Jsonv := c._type

/-- `Container.description` read-only property. -/
def Container.description (c : Container) : Jsonv := c._description

/-- `Container.tags` read-only property. -/
def Container.tags (c : Container) : Jsonv := c._tags

/-- `Container.metadata` read-only property. -/
def Container.metadata (c : Container) : Jsonv := c._metadata

/-- In-place update `self._assets = ...` of a Container. -/
def Container.withAssets : Container → List Asset → Container
  | .mk a r n t d tg m _ db p ps, as => .mk a r n t d tg m as db p ps

/-- `Container._set_parent`: sets the parent-cache value and marks the
cache resolved. -/
def Container._set_parent : Container → Option Container → Container
  | .mk a r n t d tg m as db _ _, p => .mk a r n t d tg m as db p true

/-- `Container.__init__`: direct construction; the parent cache starts
unresolved (`_parent = None`, `_parent_set = False`). -/
def Container.init (rid name type description tags metadata : Jsonv)
    (assets : List Asset) (db : Option Database) (objId : Addr) : Container :=
  .mk objId rid name type description tags metadata assets db none false

/-- `Asset.name` read-only property. -/
def Asset.name (a : Asset) : Jsonv := a._name

/-- `Asset.type` read-only property. -/
def Asset.type (a : Asset) : Jsonv := a._type

/-- `Asset.description` read-only property. -/
def Asset.description (a : Asset) : Jsonv := a._description

/-- `Asset.tags` read-only property. -/
def Asset.tags (a : Asset) : Jsonv := a._tags

/-- `Asset.metadata` read-only property. -/
def Asset.metadata (a : Asset) : Jsonv := a._metadata

/-- `Asset.file` read-only property. -/
def Asset.file (a : Asset) : Jsonv := a._file

/-- `dict_to_asset`: converts a received record to an Asset, reading `rid`,
`path` and the nested properties object, and storing the optional
owning-container reference as-is. -/
def dict_to_asset (d : Jsonv) (db : Option Database) (parent : Option Addr) :
    Except PyError Asset :=
  match pyGet "rid" d with
  | .error e => .error e
  | .ok rid =>
  match pyGet "path" d with
  | .error e => .error e
  | .ok path =>
  match pyGet "properties" d with
  | .error e => .error e
  | .ok props =>
  match pyGet "name" props with
  | .error e => .error e
  | .ok name =>
  match pyGet "kind" props with
  | .error e => .error e
  | .ok kind =>
  match pyGet "description" props with
  | .error e => .error e
  | .ok descr =>
  match pyGet "tags" props with
  | .error e => .error e
  | .ok tags =>
  match pyGet "metadata" props with
  | .error e => .error e
  | .ok meta =>
    .ok (Asset.mk rid path name kind descr tags meta db parent)

/-- The `list(map(lambda asset: dict_to_asset(asset, ...), d["assets"]))`
step of `dict_to_container`: converts each asset record left to right,
raising the first conversion error. -/
def assetsFromJson : List Jsonv → Option Database → Option Addr →
    Except PyError (List Asset)
  | [], _, _ => .ok []
  | d :: ds, db, p =>
    match dict_to_asset d db p with
    | .error e => .error e
    | .ok a =>
      match assetsFromJson ds db p with
      | .error e => .error e
      | .ok rest => .ok (a :: rest)

/-- `dict_to_container`: converts a received record to a Container, then
converts each nested asset record with the newly built Container as its
owning reference and stores the result as the Container's asset list.
`fresh` is the address allocated for the new Container object. -/
def dict_to_container (d : Jsonv) (db : Option Database) (fresh : Addr) :
    Except PyError Container :=
  match pyGet "rid" d with
  | .error e => .error e
  | .ok rid =>
  match pyGet "properties" d with
  | .error e => .error e
  | .ok props =>
  match pyGet "name" props with
  | .error e => .error e
  | .ok name =>
  match pyGet "kind" props with
  | .error e => .error e
  | .ok kind =>
  match pyGet "description" props with
  | .error e => .error e
  | .ok descr =>
  match pyGet "tags" props with
  | .error e => .error e
  | .ok tags =>
  match pyGet "metadata" props with
  | .error e => .error e
  | .ok meta =>
  match pyGet "assets" d with
  | .error e => .error e
  | .ok assetsJ =>
  match pyIterate assetsJ with
  | .error e => .error e
  | .ok items =>
  match assetsFromJson items db (some fresh) with
  | .error e => .error e
  | .ok as =>
    .ok (.mk fresh rid name kind descr tags meta as db none false)

/-- The `[dict_to_container(child, ...) for child in ...]` comprehension of
`Container.children`: converts each child record in order, allocating
consecutive fresh addresses. -/
def dict_to_container_list : List Jsonv → Option Database → Addr →
    Except PyError (List Container)
  | [], _, _ => .ok []
  | d :: ds, db, fresh =>
    match dict_to_container d db fresh with
    | .error e => .error e
    | .ok c =>
      match dict_to_container_list ds db (fresh + 1) with
      | .error e => .error e
      | .ok rest => .ok (c :: rest)

/-- Outcome of one Container accessor call: the Python result (normal
return or raised error), the post-state of the receiving Container, and the
requests sent through the connector during the call. -/
structure CallOut (α : Type) where
  res : Except PyError α
  post : Container
  reqs : List Request

/-- What `Asset.parent` returns on success: either the stored
owning-container reference (an existing object, identified by its address)
or a freshly deserialized Container. -/
inductive ParentRef where
  | cached (addr : Addr)
  | fetched (c : Container)

/-- Outcome of one `Asset.parent` call: the Python result and the requests
sent (the Asset itself is never mutated by the call). -/
structure AssetCallOut where
  res : Except PyError ParentRef
  reqs : List Request

/-- The `Container.assets` property: if no connector is bound or the
process is not in dev ("live") mode, return the cached asset list
unchanged; otherwise send one `Container.GetByIdForAnalysis` request,
treat a `None` response as "Could not get Container", an `Err` response as
a remote error, and on success deserialize the record and replace only the
cached asset list.  `env` is the process environment at this call (the
live-mode signal is recomputed from it, never stored on the Container),
`resp` the connector's response to the request, `fresh` the address
allocated for the deserialized record. -/
def Container.assets (c : Container) (env : EnvMap) (resp : Jsonv)
    (fresh : Addr) : CallOut (List Asset) :=
  match c._db with
  | none => ⟨.ok c._assets, c, []⟩
  | some db =>
    if dev_mode env = false then ⟨.ok c._assets, c, []⟩
    else
      let reqs := [Request.containerGetByIdForAnalysis db._project c._rid]
      if jsonIsNull resp then
        ⟨.error (.protocolErr "Could not get Container"), c, reqs⟩
      else
        match pyContains "Err" resp with
        | .error e => ⟨.error e, c, reqs⟩
        | .ok true =>
          match pyGet "Err" resp with
          | .error e => ⟨.error e, c, reqs⟩
          | .ok msg => ⟨.error (.remote "Error getting container" msg), c, reqs⟩
        | .ok false =>
          match pyGet "Ok" resp with
          | .error e => ⟨.error e, c, reqs⟩
          | .ok payload =>
            match dict_to_container payload (some db) fresh with
            | .error e => ⟨.error e, c, reqs⟩
            | .ok cont => ⟨.ok cont._assets, c.withAssets cont._assets, reqs⟩

/-- `Container.children`: sends one `Graph.Children` request with no
connector-presence check first (accessing `_socket` on an absent connector
raises an `AttributeError` before anything is sent), no mode check and no
caching; an `Err` response is a remote error, and a success payload is
deserialized record by record in server order. -/
def Container.children (c : Container) (resp : Jsonv) (fresh : Addr) :
    CallOut (List Container) :=
  match c._db with
  | none => ⟨.error .attributeError, c, []⟩
  | some db =>
    let reqs := [Request.graphChildren db._project c._rid]
    match pyContains "Err" resp with
    | .error e => ⟨.error e, c, reqs⟩
    | .ok true =>
      match pyGet "Err" resp with
      | .error e => ⟨.error e, c, reqs⟩
      | .ok msg => ⟨.error (.remote "Could not retrieve children" msg), c, reqs⟩
    | .ok false =>
      match pyGet "Ok" resp with
      | .error e => ⟨.error e, c, reqs⟩
      | .ok payload =>
        match pyIterate payload with
        | .error e => ⟨.error e, c, reqs⟩
        | .ok items =>
          match dict_to_container_list items (some db) fresh with
          | .error e => ⟨.error e, c, reqs⟩
          | .ok cs => ⟨.ok cs, c, reqs⟩

/-- `Container.parent`: requires a bound connector; returns the cached
parent when the cache is resolved and the process is not in dev ("live")
mode; resolves to `None` when this container's id equals the session's
root id; otherwise sends one `Graph.Parent` request, treating an `Err`
response as a remote error, a `None` payload as the root answer (cached as
resolved-absent), and any other payload as a record to deserialize and
cache as the resolved parent. -/
def Container.parent (c : Container) (env : EnvMap) (resp : Jsonv)
    (fresh : Addr) : CallOut (Option Container) :=
  match c._db with
  | none => ⟨.error (.config "No database connector"), c, []⟩
  | some db =>
    if c._parent_set && !(dev_mode env) then ⟨.ok c._parent, c, []⟩
    else if pyEqStr c._rid db._root_id then ⟨.ok none, c._set_parent none, []⟩
    else
      let reqs := [Request.graphParent db._project db._root c._rid]
      match pyContains "Err" resp with
      | .error e => ⟨.error e, c, reqs⟩
      | .ok true =>
        match pyGet "Err" resp with
        | .error e => ⟨.error e, c, reqs⟩
        | .ok msg => ⟨.error (.remote "Could not retrieve parent" msg), c, reqs⟩
      | .ok false =>
        match pyGet "Ok" resp with
        | .error e => ⟨.error e, c, reqs⟩
        | .ok payload =>
          if jsonIsNull payload then ⟨.ok none, c._set_parent none, reqs⟩
          else
            match dict_to_container payload (some db) fresh with
            | .error e => ⟨.error e, c, reqs⟩
            | .ok p => ⟨.ok (some p), c._set_parent (some p), reqs⟩

/-- `Asset.parent`: if an owning-container reference was stored at
construction, return it directly (no mode check, no request); otherwise
require a bound connector, send one `Asset.Parent` request and deserialize
the success payload into a fresh Container (never cached on the Asset). -/
def Asset.parent (a : Asset) (resp : Jsonv) (fresh : Addr) : AssetCallOut :=
  match a._parent with
  | some p => ⟨.ok (.cached p), []⟩
  | none =>
    match a._db with
    | none => ⟨.error (.config "No database connector"), []⟩
    | some db =>
      let reqs := [Request.assetParent db._project a._rid]
      match pyContains "Err" resp with
      | .error e => ⟨.error e, reqs⟩
      | .ok true =>
        match pyGet "Err" resp with
        | .error e => ⟨.error e, reqs⟩
        | .ok msg => ⟨.error (.remote "Could not retrieve parent" msg), reqs⟩
      | .ok false =>
        match pyGet "Ok" resp with
        | .error e => ⟨.error e, reqs⟩
        | .ok payload =>
          match dict_to_container payload (some db) fresh with
          | .error e => ⟨.error e, reqs⟩
          | .ok p => ⟨.ok (.fetched p), reqs⟩

/-- A well-formed properties object of the wire protocol (spec section 6):
`name`, `kind` and `description` are string-or-null, `tags` a list of
strings, `metadata` a string-keyed object. -/
structure PropertiesRecord where
  name : Option String
  kind : Option String
  description : Option String
  tags : List String
  metadata : List (String × Jsonv)

/-- A well-formed AssetRecord of the wire protocol (spec section 6). -/
structure AssetRecord where
  rid : String
  path : String
  properties : PropertiesRecord

/-- A well-formed ContainerRecord of the wire protocol (spec section 6). -/
structure ContainerRecord where
  rid : String
  properties : PropertiesRecord
  assets : List AssetRecord

/-- JSON encoding of a string-or-null field. -/
def optStrJson : Option String → Jsonv
  | none => .null
  | some s => .str s

/-- JSON encoding of a well-formed properties object. -/
def PropertiesRecord.toJson (p : PropertiesRecord) : Jsonv :=
  .obj [("name", optStrJson p.name), ("kind", optStrJson p.kind),
        ("description", optStrJson p.description),
        ("tags", .arr (p.tags.map Jsonv.str)),
        ("metadata", .obj p.metadata)]

/-- JSON encoding of a well-formed AssetRecord. -/
def AssetRecord.toJson (a : AssetRecord) : Jsonv :=
  .obj [("rid", .str a.rid), ("path", .str a.path),
        ("properties", a.properties.toJson)]

/-- JSON encoding of a well-formed ContainerRecord. -/
def ContainerRecord.toJson (r : ContainerRecord) : Jsonv :=
  .obj [("rid", .str r.rid), ("properties", r.properties.toJson),
        ("assets", .arr (r.assets.map AssetRecord.toJson))]

/-- The Asset that deserializing the encoding of a well-formed asset record
yields (statement helper for the round-trip results). -/
def AssetRecord.toAsset (ar : AssetRecord) (db : Option Database)
    (p : Option Addr) : Asset :=
  Asset.mk (.str ar.rid) (.str ar.path) (optStrJson ar.properties.name)
    (optStrJson ar.properties.kind) (optStrJson ar.properties.description)
    (.arr (ar.properties.tags.map Jsonv.str)) (.obj ar.properties.metadata)
    db p

/-- `dict_to_asset` on the encoding of a well-formed asset record succeeds
and reproduces each field. -/
lemma dict_to_asset_toJson (ar : AssetRecord) (db : Option Database)
    (p : Option Addr) :
    dict_to_asset ar.toJson db p = .ok (ar.toAsset db p) := rfl

/-- `assetsFromJson` on encodings of well-formed asset records succeeds and
reproduces the records in order. -/
lemma assetsFromJson_toJson (xs : List AssetRecord) (db : Option Database)
    (p : Option Addr) :
    assetsFromJson (xs.map AssetRecord.toJson) db p =
      .ok (xs.map (fun ar => ar.toAsset db p)) := by
  induction xs with
  | nil => rfl
  | cons a as ih =>
    simp [assetsFromJson, dict_to_asset_toJson, ih]

/-- The Container that deserializing the encoding of a well-formed
ContainerRecord yields (statement helper for the round-trip results). -/
def ContainerRecord.toContainer (r : ContainerRecord) (db : Option Database)
    (fresh : Addr) : Container :=
  .mk fresh (.str r.rid) (optStrJson r.properties.name)
    (optStrJson r.properties.kind) (optStrJson r.properties.description)
    (.arr (r.properties.tags.map Jsonv.str)) (.obj r.properties.metadata)
    (r.assets.map (fun ar => ar.toAsset db (some fresh))) db none false

/-- `dict_to_container` on the encoding of a well-formed ContainerRecord
succeeds and reproduces each field, asset list included. -/
lemma dict_to_container_toJson (r : ContainerRecord) (db : Option Database)
    (fresh : Addr) :
    dict_to_container r.toJson db fresh = .ok (r.toContainer db fresh) := by
  rw [show dict_to_container r.toJson db fresh =
        (match assetsFromJson (r.assets.map AssetRecord.toJson) db (some fresh) with
         | .error e => Except.error e
         | .ok as =>
           Except.ok (Container.mk fresh (.str r.rid)
             (optStrJson r.properties.name) (optStrJson r.properties.kind)
             (optStrJson r.properties.description)
             (.arr (r.properties.tags.map Jsonv.str))
             (.obj r.properties.metadata) as db none false))
      from rfl,
      assetsFromJson_toJson]
  rfl

@[simp] lemma Container.objId_mk (a : Addr) (r n t d tg m : Jsonv)
    (as : List Asset) (db : Option Database) (p : Option Container) (ps : Bool) :
    (Container.mk a r n t d tg m as db p ps).objId = a := rfl

@[simp] lemma Container.rid_mk (a : Addr) (r n t d tg m : Jsonv)
    (as : List Asset) (db : Option Database) (p : Option Container) (ps : Bool) :
    (Container.mk a r n t d tg m as db p ps)._rid = r := rfl

@[simp] lemma Container.name_mk (a : Addr) (r n t d tg m : Jsonv)
    (as : List Asset) (db : Option Database) (p : Option Container) (ps : Bool) :
    (Container.mk a r n t d tg m as db p ps)._name = n := rfl

@[simp] lemma Container.type_mk (a : Addr) (r n t d tg m : Jsonv)
    (as : List Asset) (db : Option Database) (p : Option Container) (ps : Bool) :
    (Container.mk a r n t d tg m as db p ps)._type = t := rfl

@[simp] lemma Container.description_mk (a : Addr) (r n t d tg m : Jsonv)
    (as : List Asset) (db : Option Database) (p : Option Container) (ps : Bool) :
    (Container.mk a r n t d tg m as db p ps)._description = d := rfl

@[simp] lemma Container.tags_mk (a : Addr) (r n t d tg m : Jsonv)
    (as : List Asset) (db : Option Database) (p : Option Container) (ps : Bool) :
    (Container.mk a r n t d tg m as db p ps)._tags = tg := rfl

@[simp] lemma Container.metadata_mk (a : Addr) (r n t d tg m : Jsonv)
    (as : List Asset) (db : Option Database) (p : Option Container) (ps : Bool) :
    (Container.mk a r n t d tg m as db p ps)._metadata = m := rfl

@[simp] lemma Container.assets_mk (a : Addr) (r n t d tg m : Jsonv)
    (as : List Asset) (db : Option Database) (p : Option Container) (ps : Bool) :
    (Container.mk a r n t d tg m as db p ps)._assets = as := rfl

@[simp] lemma Container.db_mk (a : Addr) (r n t d tg m : Jsonv)
    (as : List Asset) (db : Option Database) (p : Option Container) (ps : Bool) :
    (Container.mk a r n t d tg m as db p ps)._db = db := rfl

@[simp] lemma Container.parent_mk (a : Addr) (r n t d tg m : Jsonv)
    (as : List Asset) (db : Option Database) (p : Option Container) (ps : Bool) :
    (Container.mk a r n t d tg m as db p ps)._parent = p := rfl

@[simp] lemma Container.parent_set_mk (a : Addr) (r n t d tg m : Jsonv)
    (as : List Asset) (db : Option Database) (p : Option Container) (ps : Bool) :
    (Container.mk a r n t d tg m as db p ps)._parent_set = ps := rfl

@[simp] lemma Container.objId_set_parent (c : Container) (p : Option Container) :
    (c._set_parent p).objId = c.objId := by cases c; rfl

@[simp] lemma Container.rid_set_parent (c : Container) (p : Option Container) :
    (c._set_parent p)._rid = c._rid := by cases c; rfl

@[simp] lemma Container.name_set_parent (c : Container) (p : Option Container) :
    (c._set_parent p)._name = c._name := by cases c; rfl

@[simp] lemma Container.type_set_parent (c : Container) (p : Option Container) :
    (c._set_parent p)._type = c._type := by cases c; rfl

@[simp] lemma Container.description_set_parent (c : Container) (p : Option Container) :
    (c._set_parent p)._description = c._description := by cases c; rfl

@[simp] lemma Container.tags_set_parent (c : Container) (p : Option Container) :
    (c._set_parent p)._tags = c._tags := by cases c; rfl

@[simp] lemma Container.metadata_set_parent (c : Container) (p : Option Container) :
    (c._set_parent p)._metadata = c._metadata := by cases c; rfl

@[simp] lemma Container.assets_set_parent (c : Container) (p : Option Container) :
    (c._set_parent p)._assets = c._assets := by cases c; rfl

@[simp] lemma Container.db_set_parent (c : Container) (p : Option Container) :
    (c._set_parent p)._db = c._db := by cases c; rfl

@[simp] lemma Container.parent_set_parent (c : Container) (p : Option Container) :
    (c._set_parent p)._parent = p := by cases c; rfl

@[simp] lemma Container.parent_set_set_parent (c : Container) (p : Option Container) :
    (c._set_parent p)._parent_set = true := by cases c; rfl

@[simp] lemma Container.objId_withAssets (c : Container) (as : List Asset) :
    (c.withAssets as).objId = c.objId := by cases c; rfl

@[simp] lemma Container.rid_withAssets (c : Container) (as : List Asset) :
    (c.withAssets as)._rid = c._rid := by cases c; rfl

@[simp] lemma Container.name_withAssets (c : Container) (as : List Asset) :
    (c.withAssets as)._name = c._name := by cases c; rfl

@[simp] lemma Container.type_withAssets (c : Container) (as : List Asset) :
    (c.withAssets as)._type = c._type := by cases c; rfl

@[simp] lemma Container.description_withAssets (c : Container) (as : List Asset) :
    (c.withAssets as)._description = c._description := by cases c; rfl

@[simp] lemma Container.tags_withAssets (c : Container) (as : List Asset) :
    (c.withAssets as)._tags = c._tags := by cases c; rfl

@[simp] lemma Container.metadata_withAssets (c : Container) (as : List Asset) :
    (c.withAssets as)._metadata = c._metadata := by cases c; rfl

@[simp] lemma Container.assets_withAssets (c : Container) (as : List Asset) :
    (c.withAssets as)._assets = as := by cases c; rfl

@[simp] lemma Container.db_withAssets (c : Container) (as : List Asset) :
    (c.withAssets as)._db = c._db := by cases c; rfl

@[simp] lemma Container.parent_withAssets (c : Container) (as : List Asset) :
    (c.withAssets as)._parent = c._parent := by cases c; rfl

@[simp] lemma Container.parent_set_withAssets (c : Container) (as : List Asset) :
    (c.withAssets as)._parent_set = c._parent_set := by cases c; rfl

/-- Cache-consistency invariant of a Container: a resolved parent-cache can
only have been resolved through `Container.parent`, which requires a bound
connector and caches a present parent only for a container whose id differs
from the session's root id.  It is established by `Container.__init__` and
by the deserializer (both leave the cache unresolved) and preserved by
every accessor. -/
def Container.cacheConsistent (c : Container) : Prop :=
  c._parent_set = true →
    ∃ db, c._db = some db ∧
      (c._parent = none ∨ pyEqStr c._rid db._root_id = false)

/-- Directly constructed Containers are cache-consistent (the parent cache
starts unresolved). -/
lemma cacheConsistent_init (rid name type description tags metadata : Jsonv)
    (assets : List Asset) (db : Option Database) (objId : Addr) :
    (Container.init rid name type description tags metadata assets db
      objId).cacheConsistent := by
  intro h
  simp [Container.init] at h

/-- Deserialized Containers are cache-consistent (the parent cache starts
unresolved). -/
lemma cacheConsistent_dict_to_container (d : Jsonv) (db : Option Database)
    (fresh : Addr) (c : Container)
    (h : dict_to_container d db fresh = .ok c) : c.cacheConsistent := by
  unfold dict_to_container at h
  repeat' split at h
  all_goals cases h
  all_goals intro hps
  all_goals simp at hps

/-- Resolving the cache to absent keeps a connector-bound Container
cache-consistent. -/
lemma cacheConsistent_set_parent_none (c : Container) (db : Database)
    (hdb : c._db = some db) : (c._set_parent none).cacheConsistent := by
  intro _
  exact ⟨db, by simp [hdb], Or.inl (by simp)⟩

/-- Resolving the cache to a present parent keeps a connector-bound
non-root Container cache-consistent. -/
lemma cacheConsistent_set_parent_some (c : Container) (db : Database)
    (p : Container) (hdb : c._db = some db)
    (hr : pyEqStr c._rid db._root_id = false) :
    (c._set_parent (some p)).cacheConsistent := by
  intro _
  exact ⟨db, by simp [hdb], Or.inr (by simp [hr])⟩

/-- Replacing the asset list preserves cache consistency. -/
lemma cacheConsistent_withAssets (c : Container) (as : List Asset)
    (h : c.cacheConsistent) : (c.withAssets as).cacheConsistent := by
  intro hs
  obtain ⟨db, h1, h2⟩ := h (by simpa using hs)
  exact ⟨db, by simpa using h1, by simpa using h2⟩

/-- `Container.parent` preserves cache consistency. -/
lemma cacheConsistent_parent (c : Container) (env : EnvMap) (resp : Jsonv)
    (fresh : Addr) (h : c.cacheConsistent) :
    (Container.parent c env resp fresh).post.cacheConsistent := by
  unfold Container.parent
  cases hdb : c._db with
  | none => exact h
  | some db =>
    repeat' split
    all_goals first
      | exact h
      | exact cacheConsistent_set_parent_none c db hdb
      | (refine cacheConsistent_set_parent_some c db _ hdb ?_
         simp_all)

/-- `Container.assets` preserves cache consistency. -/
lemma cacheConsistent_assets (c : Container) (env : EnvMap) (resp : Jsonv)
    (fresh : Addr) (h : c.cacheConsistent) :
    (Container.assets c env resp fresh).post.cacheConsistent := by
  unfold Container.assets
  cases c._db with
  | none => exact h
  | some db =>
    repeat' split
    all_goals first
      | exact h
      | exact cacheConsistent_withAssets _ _ h

/-- `Container.children` never mutates the receiving Container. -/
lemma children_post_eq (c : Container) (resp : Jsonv) (fresh : Addr) :
    (Container.children c resp fresh).post = c := by
  unfold Container.children
  cases c._db with
  | none => rfl
  | some db =>
    repeat' split
    all_goals rfl

/-- `Container.children` preserves cache consistency. -/
lemma cacheConsistent_children (c : Container) (resp : Jsonv) (fresh : Addr)
    (h : c.cacheConsistent) :
    (Container.children c resp fresh).post.cacheConsistent := by
  rw [children_post_eq]
  exact h

/-- Recognizer of raised (rather than returned) call results. -/
def isErrRes {α : Type} : Except PyError α → Bool
  | .error _ => true
  | .ok _ => false

/-- Recognizer of the Remote error among call results. -/
def isRemoteRes {α : Type} : Except PyError α → Bool
  | .error (.remote _ _) => true
  | _ => false

/-- Recognizer of the Protocol error. -/
def PyError.isProtocol : PyError → Bool
  | .protocolErr _ => true
  | _ => false

/-- Recognizer of the Protocol error among call results. -/
def isProtocolRes {α : Type} : Except PyError α → Bool
  | .error e => e.isProtocol
  | .ok _ => false

/-- A failing `pyContains` only raises `TypeError`, never a Protocol
error. -/
lemma pyContains_error_np (key : String) (v : Jsonv) (e : PyError)
    (h : pyContains key v = .error e) : e.isProtocol = false := by
  unfold pyContains at h
  repeat' split at h
  all_goals cases h
  rfl

/-- A failing `pyGet` only raises `TypeError` or `KeyError`, never a
Protocol error. -/
lemma pyGet_error_np (key : String) (v : Jsonv) (e : PyError)
    (h : pyGet key v = .error e) : e.isProtocol = false := by
  unfold pyGet at h
  repeat' split at h
  all_goals cases h
  all_goals rfl

/-- A failing `pyIterate` only raises `TypeError`, never a Protocol
error. -/
lemma pyIterate_error_np (v : Jsonv) (e : PyError)
    (h : pyIterate v = .error e) : e.isProtocol = false := by
  unfold pyIterate at h
  repeat' split at h
  all_goals cases h
  rfl

/-- A failing `dict_to_asset` never raises a Protocol error. -/
lemma dict_to_asset_error_np (d : Jsonv) (db : Option Database)
    (p : Option Addr) (e : PyError)
    (h : dict_to_asset d db p = .error e) : e.isProtocol = false := by
  unfold dict_to_asset at h
  repeat' split at h
  all_goals cases h
  all_goals solve_by_elim [pyGet_error_np]

/-- A failing `assetsFromJson` never raises a Protocol error. -/
lemma assetsFromJson_error_np (ds : List Jsonv) (db : Option Database)
    (p : Option Addr) (e : PyError)
    (h : assetsFromJson ds db p = .error e) : e.isProtocol = false := by
  induction ds with
  | nil => simp [assetsFromJson] at h
  | cons d ds ih =>
    unfold assetsFromJson at h
    repeat' split at h
    all_goals cases h
    all_goals solve_by_elim [dict_to_asset_error_np]

/-- A failing `dict_to_container` never raises a Protocol error. -/
lemma dict_to_container_error_np (d : Jsonv) (db : Option Database)
    (fresh : Addr) (e : PyError)
    (h : dict_to_container d db fresh = .error e) : e.isProtocol = false := by
  unfold dict_to_container at h
  repeat' split at h
  all_goals cases h
  all_goals solve_by_elim [pyGet_error_np, pyIterate_error_np,
    assetsFromJson_error_np]

/-- A failing `dict_to_container_list` never raises a Protocol error. -/
lemma dict_to_container_list_error_np (ds : List Jsonv)
    (db : Option Database) (fresh : Addr) (e : PyError)
    (h : dict_to_container_list ds db fresh = .error e) :
    e.isProtocol = false := by
  induction ds generalizing fresh with
  | nil => simp [dict_to_container_list] at h
  | cons d ds ih =>
    unfold dict_to_container_list at h
    repeat' split at h
    all_goals cases h
    all_goals solve_by_elim [dict_to_container_error_np]

/-- A raising `Container.assets` call leaves the Container unchanged. -/
lemma assets_error_post (c : Container) (env : EnvMap) (resp : Jsonv)
    (fresh : Addr)
    (h : isErrRes (Container.assets c env resp fresh).res = true) :
    (Container.assets c env resp fresh).post = c := by
  unfold Container.assets at h ⊢
  revert h
  repeat' split
  all_goals intro h
  all_goals first | rfl | exact Bool.noConfusion h

/-- A raising `Container.parent` call leaves the Container unchanged. -/
lemma parent_error_post (c : Container) (env : EnvMap) (resp : Jsonv)
    (fresh : Addr)
    (h : isErrRes (Container.parent c env resp fresh).res = true) :
    (Container.parent c env resp fresh).post = c := by
  unfold Container.parent at h ⊢
  revert h
  repeat' split
  all_goals intro h
  all_goals first | rfl | exact Bool.noConfusion h

/-- A Remote-error result is a raising result. -/
lemma isErrRes_of_isRemoteRes {α : Type} (x : Except PyError α)
    (h : isRemoteRes x = true) : isErrRes x = true := by
  cases x with
  | error e => rfl
  | ok a => exact Bool.noConfusion h

/-- `Container.children` never raises the Protocol error. -/
lemma children_not_protocol (c : Container) (resp : Jsonv) (fresh : Addr) :
    isProtocolRes (Container.children c resp fresh).res = false := by
  unfold Container.children
  repeat' split
  all_goals first
    | rfl
    | solve_by_elim [pyContains_error_np, pyGet_error_np, pyIterate_error_np,
        dict_to_container_list_error_np]

/-- `Container.parent` never raises the Protocol error. -/
lemma parent_not_protocol (c : Container) (env : EnvMap) (resp : Jsonv)
    (fresh : Addr) :
    isProtocolRes (Container.parent c env resp fresh).res = false := by
  unfold Container.parent
  repeat' split
  all_goals first
    | rfl
    | solve_by_elim [pyContains_error_np, pyGet_error_np,
        dict_to_container_error_np]

/-- `Asset.parent` never raises the Protocol error. -/
lemma asset_parent_not_protocol (a : Asset) (resp : Jsonv) (fresh : Addr) :
    isProtocolRes (Asset.parent a resp fresh).res = false := by
  unfold Asset.parent
  repeat' split
  all_goals first
    | rfl
    | solve_by_elim [pyContains_error_np, pyGet_error_np,
        dict_to_container_error_np]

/-- An asset produced by `dict_to_asset` stores the owning-container
reference it was built with. -/
lemma dict_to_asset_parent (d : Jsonv) (db : Option Database)
    (p : Option Addr) (a : Asset) (h : dict_to_asset d db p = .ok a) :
    a._parent = p := by
  unfold dict_to_asset at h
  repeat' split at h
  all_goals cases h
  rfl

/-- Every asset produced by `assetsFromJson` stores the owning-container
reference it was built with. -/
lemma assetsFromJson_parent (ds : List Jsonv) (db : Option Database)
    (p : Option Addr) (as : List Asset)
    (h : assetsFromJson ds db p = .ok as) :
    ∀ a, a ∈ as → a._parent = p := by
  induction ds generalizing as with
  | nil =>
    simp [assetsFromJson] at h
    subst h
    intro a ha
    simp at ha
  | cons d ds ih =>
    unfold assetsFromJson at h
    repeat' split at h
    all_goals cases h
    intro a ha
    rcases List.mem_cons.mp ha with rfl | hmem
    · solve_by_elim [dict_to_asset_parent]
    · solve_by_elim [ih]

/-- Sample session binding project id "p1" and root id "r1". -/
def sampleDb : Database := ⟨"p1", "r1"⟩

/-- A process environment in which the container-identity marker is absent
(dev/"live" mode). -/
def liveEnv : EnvMap := fun _ => none

/-- A process environment in which the container-identity marker is present
(analysis mode; not live). -/
def analysisEnv : EnvMap := fun _ => some "c0"

/-- A connector-free Container used as a cached parent value. -/
def sampleParent : Container :=
  .mk 7 (.str "par") .null .null .null (.arr []) (.obj []) [] none none false

/-- A connector-bound non-root Container whose parent-cache is resolved to
`sampleParent`. -/
def sampleResolved : Container :=
  .mk 3 (.str "c9") .null .null .null (.arr []) (.obj []) []
    (some sampleDb) (some sampleParent) true

/-- A connector-bound non-root Container with an unresolved parent-cache. -/
def sampleUnresolved : Container :=
  .mk 6 (.str "c9") .null .null .null (.arr []) (.obj []) []
    (some sampleDb) none false

/-- A connector-bound Container whose id equals the root id, parent-cache
unresolved. -/
def rootUnresolved : Container :=
  .mk 5 (.str "r1") .null .null .null (.arr []) (.obj []) []
    (some sampleDb) none false

/-- A connector-bound Container whose id equals the root id and whose
parent-cache is resolved to a present parent (a state the public operations
never produce; see claim C2). -/
def rootResolved : Container :=
  .mk 4 (.str "r1") .null .null .null (.arr []) (.obj []) []
    (some sampleDb) (some sampleParent) true

/-- A Container with no bound connector. -/
def orphanContainer : Container :=
  .mk 11 (.str "c2") .null .null .null (.arr []) (.obj []) [] none none false

/-- An Asset with no owning-container reference and no bound connector. -/
def orphanAsset : Asset :=
  ⟨.str "a2", .str "/g.txt", .null, .null, .null, .arr [], .obj [], none, none⟩

/-- An Asset with no owning-container reference but a bound connector. -/
def connectedAsset : Asset :=
  ⟨.str "a3", .str "/h.txt", .null, .null, .null, .arr [], .obj [],
    some sampleDb, none⟩

/-- The example asset record of spec section 8. -/
def sampleAssetRecord : AssetRecord :=
  ⟨"a1", "/f.txt", ⟨some "f", none, none, ["x"], []⟩⟩

/-- The example container record of spec section 8. -/
def sampleContainerRecord : ContainerRecord :=
  ⟨"c1", ⟨some "root", none, none, [], []⟩, [sampleAssetRecord]⟩

/-- Claim C1: for every (cache-consistent) Container whose parent-cache is
resolved to a present parent X, calling `parent()` outside live mode
returns X with zero remote requests, while in live mode every call sends
exactly one `Graph.Parent` request even though the cache is already
resolved.  Cache consistency (a resolved cache implies a bound connector
and, when resolved to a present parent, a non-root id) is established by
`cacheConsistent_init` and `cacheConsistent_dict_to_container` and
preserved by `cacheConsistent_parent`, `cacheConsistent_assets` and
`cacheConsistent_children`. -/
theorem claim_C1_cache_bypass_by_mode (c X : Container) (env : EnvMap)
    (resp : Jsonv) (fresh : Addr) (hcc : c.cacheConsistent)
    (hset : c._parent_set = true) (hX : c._parent = some X) :
    (dev_mode env = false →
      Container.parent c env resp fresh = ⟨.ok (some X), c, []⟩)
    ∧ (dev_mode env = true → ∃ db, c._db = some db ∧
        (Container.parent c env resp fresh).reqs =
          [Request.graphParent db._project db._root c._rid]) := by
  obtain ⟨db, hdb, hor⟩ := hcc hset
  have hnr : pyEqStr c._rid db._root_id = false := by
    rcases hor with h1 | h1
    · rw [hX] at h1
      cases h1
    · exact h1
  constructor
  · intro hm
    unfold Container.parent
    rw [hdb]
    simp [hset, hm, hX]
  · intro hm
    refine ⟨db, hdb, ?_⟩
    unfold Container.parent
    rw [hdb]
    simp only [hset, hm]
    rw [if_neg (by simp), if_neg (by simp [hnr])]
    repeat' split
    all_goals rfl

/-- Concrete instantiation of claim C1: a resolved non-root Container in
analysis (non-live) mode returns the cached parent untouched with no
request. -/
theorem claim_C1_witness :
    Container.parent sampleResolved analysisEnv Jsonv.null 0 =
      ⟨.ok (some sampleParent), sampleResolved, []⟩ :=
  (claim_C1_cache_bypass_by_mode sampleResolved sampleParent analysisEnv
    Jsonv.null 0 (fun _ => ⟨sampleDb, rfl, Or.inr rfl⟩) rfl rfl).1 rfl

/-- Claim C2 as stated is false on the code: the non-live cache
short-circuit precedes the root-id check, so a Container whose id equals
the bound root id but whose parent-cache is resolved to a present parent
returns that cached parent — not absent — and its cache is not resolved to
absent. -/
theorem claim_C2_counterexample :
    Container.parent rootResolved analysisEnv Jsonv.null 0 =
      ⟨.ok (some sampleParent), rootResolved, []⟩
    ∧ (Except.ok (some sampleParent) : Except PyError (Option Container)) ≠
        Except.ok none := by
  constructor
  · rfl
  · intro h
    exact Option.noConfusion (Except.ok.inj h)

/-- Claim C2 (amended): for every Container with a bound connector whose id
equals the session's configured root id, whenever the non-live cache
short-circuit does not fire (cache unresolved, or live mode), `parent()`
resolves the parent-cache to absent and returns absent with zero remote
requests; the root-id check precedes any remote call but follows the
cache-state check. -/
theorem claim_C2_root_sentinel (c : Container) (db : Database)
    (env : EnvMap) (resp : Jsonv) (fresh : Addr) (hdb : c._db = some db)
    (hrid : pyEqStr c._rid db._root_id = true)
    (hnc : c._parent_set = false ∨ dev_mode env = true) :
    Container.parent c env resp fresh = ⟨.ok none, c._set_parent none, []⟩ := by
  unfold Container.parent
  rw [hdb]
  rcases hnc with h1 | h1
  · simp [h1, hrid]
  · simp [h1, hrid]

/-- Concrete instantiation of amended claim C2: a root-id Container with an
unresolved cache resolves to absent with no request, in non-live mode. -/
theorem claim_C2_witness :
    Container.parent rootUnresolved analysisEnv Jsonv.null 0 =
      ⟨.ok none, rootUnresolved._set_parent none, []⟩ :=
  claim_C2_root_sentinel rootUnresolved sampleDb analysisEnv Jsonv.null 0
    rfl rfl (Or.inl rfl)

/-- Claim C3: when `parent()` reaches the remote branch (connector bound,
cache not short-circuiting, id not the root id) it sends exactly one
`Graph.Parent` request carrying the session's project id, the configured
root id and this container's id, whatever the response; an `Err` response
raises the Remote error with the server payload and leaves the state
unchanged; an `Ok` response with a null payload resolves the cache to
absent and returns absent; any other `Ok` payload is deserialized, cached
as the resolved parent, and returned. -/
theorem claim_C3_remote_parent_branch (c : Container) (db : Database)
    (env : EnvMap) (fresh : Addr) (hdb : c._db = some db)
    (hnc : c._parent_set = false ∨ dev_mode env = true)
    (hnr : pyEqStr c._rid db._root_id = false) :
    (∀ resp, (Container.parent c env resp fresh).reqs =
        [Request.graphParent db._project db._root c._rid])
    ∧ (∀ msg, Container.parent c env (.obj [("Err", msg)]) fresh =
        ⟨.error (.remote "Could not retrieve parent" msg), c,
          [Request.graphParent db._project db._root c._rid]⟩)
    ∧ Container.parent c env (.obj [("Ok", Jsonv.null)]) fresh =
        ⟨.ok none, c._set_parent none,
          [Request.graphParent db._project db._root c._rid]⟩
    ∧ (∀ payload p, jsonIsNull payload = false →
        dict_to_container payload (some db) fresh = .ok p →
        Container.parent c env (.obj [("Ok", payload)]) fresh =
          ⟨.ok (some p), c._set_parent (some p),
            [Request.graphParent db._project db._root c._rid]⟩) := by
  have hcond : (c._parent_set && !dev_mode env) = false := by
    rcases hnc with h1 | h1 <;> simp [h1]
  refine ⟨?_, ?_, ?_, ?_⟩
  · intro resp
    unfold Container.parent
    rw [hdb]
    simp only [hcond, hnr, Bool.false_eq_true, if_false]
    repeat' split
    all_goals rfl
  · intro msg
    unfold Container.parent
    rw [hdb]
    simp [hcond, hnr, pyContains, pyGet]
  · unfold Container.parent
    rw [hdb]
    simp [hcond, hnr, pyContains, pyGet, jsonIsNull]
  · intro payload p hnull hd
    unfold Container.parent
    rw [hdb]
    simp [hcond, hnr, pyContains, pyGet, hnull, hd]

/-- Concrete instantiation of claim C3: a connector-bound non-root
Container with unresolved cache, receiving an `Ok` response with a null
payload, resolves to absent and sends exactly the `Graph.Parent` request
with (project id, root id, container id). -/
theorem claim_C3_witness :
    Container.parent sampleUnresolved liveEnv (.obj [("Ok", Jsonv.null)]) 0 =
      ⟨.ok none, sampleUnresolved._set_parent none,
        [Request.graphParent "p1" "r1" (.str "c9")]⟩ :=
  (claim_C3_remote_parent_branch sampleUnresolved sampleDb liveEnv 0 rfl
    (Or.inr rfl) rfl).2.2.1

/-- Claim C4: an accessor call (`assets()`, `children()`, `parent()`) that
fails with the Remote error leaves all previously cached state of the
Container — its asset list and its parent-cache — exactly as it was before
the call. -/
theorem claim_C4_error_isolation (c : Container) (env : EnvMap)
    (resp : Jsonv) (fresh : Addr) :
    (isRemoteRes (Container.assets c env resp fresh).res = true →
      (Container.assets c env resp fresh).post._assets = c._assets ∧
      (Container.assets c env resp fresh).post._parent = c._parent ∧
      (Container.assets c env resp fresh).post._parent_set = c._parent_set)
    ∧ (isRemoteRes (Container.children c resp fresh).res = true →
      (Container.children c resp fresh).post._assets = c._assets ∧
      (Container.children c resp fresh).post._parent = c._parent ∧
      (Container.children c resp fresh).post._parent_set = c._parent_set)
    ∧ (isRemoteRes (Container.parent c env resp fresh).res = true →
      (Container.parent c env resp fresh).post._assets = c._assets ∧
      (Container.parent c env resp fresh).post._parent = c._parent ∧
      (Container.parent c env resp fresh).post._parent_set = c._parent_set) := by
  refine ⟨fun h => ?_, fun h => ?_, fun h => ?_⟩
  · rw [assets_error_post c env resp fresh (isErrRes_of_isRemoteRes _ h)]
    exact ⟨rfl, rfl, rfl⟩
  · rw [children_post_eq]
    exact ⟨rfl, rfl, rfl⟩
  · rw [parent_error_post c env resp fresh (isErrRes_of_isRemoteRes _ h)]
    exact ⟨rfl, rfl, rfl⟩

/-- Concrete instantiation of claim C4: a live-mode `assets()` call that
receives an `Err` response leaves the asset list and parent-cache of the
Container untouched. -/
theorem claim_C4_witness :
    (Container.assets sampleResolved liveEnv
        (.obj [("Err", Jsonv.str "boom")]) 0).post._assets =
      sampleResolved._assets
    ∧ (Container.assets sampleResolved liveEnv
        (.obj [("Err", Jsonv.str "boom")]) 0).post._parent =
      sampleResolved._parent
    ∧ (Container.assets sampleResolved liveEnv
        (.obj [("Err", Jsonv.str "boom")]) 0).post._parent_set =
      sampleResolved._parent_set :=
  (claim_C4_error_isolation sampleResolved liveEnv
    (.obj [("Err", Jsonv.str "boom")]) 0).1 rfl

/-- Claim C5: deserializing any well-formed ContainerRecord and re-reading
the resulting Container's accessors reproduces every field exactly (name
from name, type from kind, description, tags, metadata), and every nested
asset record's fields (rid, path as file, name, type from kind,
description, tags, metadata) are reproduced exactly and in order. -/
theorem claim_C5_round_trip (r : ContainerRecord) (db : Option Database)
    (fresh : Addr) :
    ∃ c, dict_to_container r.toJson db fresh = .ok c ∧
      c._rid = .str r.rid ∧
      c.name = optStrJson r.properties.name ∧
      c.type = optStrJson r.properties.kind ∧
      c.description = optStrJson r.properties.description ∧
      c.tags = .arr (r.properties.tags.map Jsonv.str) ∧
      c.metadata = .obj r.properties.metadata ∧
      c._assets.map (fun a =>
          (a._rid, a.file, a.name, a.type, a.description, a.tags,
            a.metadata)) =
        r.assets.map (fun ar =>
          (Jsonv.str ar.rid, Jsonv.str ar.path,
            optStrJson ar.properties.name, optStrJson ar.properties.kind,
            optStrJson ar.properties.description,
            Jsonv.arr (ar.properties.tags.map Jsonv.str),
            Jsonv.obj ar.properties.metadata)) := by
  refine ⟨r.toContainer db fresh, dict_to_container_toJson r db fresh,
    rfl, rfl, rfl, rfl, rfl, rfl, ?_⟩
  simp only [ContainerRecord.toContainer, Container.assets_mk, List.map_map]
  rfl

/-- Claim C6: for a Container built by the deserializer, every Asset in its
owned asset list, when asked for its parent, returns exactly that Container
(the same object, identified by its address) with zero remote requests;
`Asset.parent` consults no mode signal in this branch. -/
theorem claim_C6_eager_ownership (d : Jsonv) (db : Option Database)
    (fresh : Addr) (c : Container)
    (h : dict_to_container d db fresh = .ok c) :
    ∀ a, a ∈ c._assets → ∀ resp fresh2,
      Asset.parent a resp fresh2 = ⟨.ok (.cached c.objId), []⟩ := by
  unfold dict_to_container at h
  repeat' split at h
  all_goals cases h
  intro a ha resp fresh2
  have hpar : a._parent = some fresh := by
    refine assetsFromJson_parent _ _ _ _ (by assumption) a ?_
    simpa using ha
  unfold Asset.parent
  rw [hpar]
  rfl

/-- Concrete instantiation of claim C6 at the example record of spec
section 8: the deserialized asset "a1" returns the owning container "c1"
itself, with no request. -/
theorem claim_C6_witness :
    Asset.parent (sampleAssetRecord.toAsset (some sampleDb) (some 9))
        Jsonv.null 0 =
      ⟨.ok (.cached
        (sampleContainerRecord.toContainer (some sampleDb) 9).objId), []⟩ :=
  claim_C6_eager_ownership sampleContainerRecord.toJson (some sampleDb) 9
    (sampleContainerRecord.toContainer (some sampleDb) 9)
    (dict_to_container_toJson sampleContainerRecord (some sampleDb) 9)
    (sampleAssetRecord.toAsset (some sampleDb) (some 9))
    (by simp [ContainerRecord.toContainer, sampleContainerRecord])
    Jsonv.null 0

/-- Claim C7: if no connector is bound, or the process is not in live mode
(the container-identity marker is present in the environment at this call),
`assets()` returns the currently cached asset list unchanged with zero
remote requests.  The live-mode signal is `dev_mode env`, recomputed from
the environment passed to each call: it is not part of the Container state
and cannot be cached by it. -/
theorem claim_C7_assets_short_circuit (c : Container) (env : EnvMap)
    (resp : Jsonv) (fresh : Addr)
    (h : c._db = none ∨ dev_mode env = false) :
    Container.assets c env resp fresh = ⟨.ok c._assets, c, []⟩ := by
  unfold Container.assets
  rcases h with h | h
  · rw [h]
  · cases c._db with
    | none => rfl
    | some db => simp [h]

/-- Concrete instantiation of claim C7: in analysis (non-live) mode the
cached asset list is returned with no request. -/
theorem claim_C7_witness :
    Container.assets sampleResolved analysisEnv Jsonv.null 0 =
      ⟨.ok sampleResolved._assets, sampleResolved, []⟩ :=
  claim_C7_assets_short_circuit sampleResolved analysisEnv Jsonv.null 0
    (Or.inr rfl)

/-- Claim C8: a successful remote refetch by `assets()` (connector bound,
live mode, normal return) replaces only the cached asset list, wholesale,
with the freshly deserialized list; the Container's rid, name, type,
description, tags, metadata and parent-cache are unchanged by the call. -/
theorem claim_C8_assets_refetch_frame (c : Container) (db : Database)
    (env : EnvMap) (resp : Jsonv) (fresh : Addr) (res : List Asset)
    (post : Container) (reqs : List Request)
    (hdb : c._db = some db) (hm : dev_mode env = true)
    (hrun : Container.assets c env resp fresh = ⟨.ok res, post, reqs⟩) :
    post._rid = c._rid ∧ post._name = c._name ∧ post._type = c._type ∧
    post._description = c._description ∧ post._tags = c._tags ∧
    post._metadata = c._metadata ∧ post._parent = c._parent ∧
    post._parent_set = c._parent_set ∧ post._assets = res ∧
    ∃ payload cc, pyGet "Ok" resp = .ok payload ∧
      dict_to_container payload (some db) fresh = .ok cc ∧
      res = cc._assets := by
  unfold Container.assets at hrun
  rw [hdb] at hrun
  simp only [hm, Bool.true_eq_false, if_false] at hrun
  repeat' split at hrun
  all_goals cases hrun
  refine ⟨by simp, by simp, by simp, by simp, by simp, by simp, by simp,
    by simp, by simp, ?_⟩
  exact ⟨_, _, by assumption, by assumption, rfl⟩

/-- The asset list obtained by refetching the example record with fresh
address 0 (statement helper for the claim C8 instantiation). -/
def refetched : List Asset :=
  (sampleContainerRecord.toContainer (some sampleDb) 0)._assets

/-- Concrete instantiation of claim C8: a live-mode `assets()` call that
successfully refetches the example record replaces only the asset list. -/
theorem claim_C8_witness :
    (sampleResolved.withAssets refetched)._rid = sampleResolved._rid ∧
    (sampleResolved.withAssets refetched)._name = sampleResolved._name ∧
    (sampleResolved.withAssets refetched)._type = sampleResolved._type ∧
    (sampleResolved.withAssets refetched)._description =
      sampleResolved._description ∧
    (sampleResolved.withAssets refetched)._tags = sampleResolved._tags ∧
    (sampleResolved.withAssets refetched)._metadata =
      sampleResolved._metadata ∧
    (sampleResolved.withAssets refetched)._parent = sampleResolved._parent ∧
    (sampleResolved.withAssets refetched)._parent_set =
      sampleResolved._parent_set ∧
    (sampleResolved.withAssets refetched)._assets = refetched ∧
    ∃ payload cc,
      pyGet "Ok" (.obj [("Ok", sampleContainerRecord.toJson)]) =
        .ok payload ∧
      dict_to_container payload (some sampleDb) 0 = .ok cc ∧
      refetched = cc._assets :=
  claim_C8_assets_refetch_frame sampleResolved sampleDb liveEnv
    (.obj [("Ok", sampleContainerRecord.toJson)]) 0 refetched
    (sampleResolved.withAssets refetched)
    [Request.containerGetByIdForAnalysis "p1" (.str "c9")] rfl rfl rfl

/-- Claim C9 (implicit): calling `children()` on a Container with no bound
connector does not raise the Configuration error that `parent()` and
`Asset.parent()` raise; `children()` performs no connector-presence check
and instead fails by dereferencing the absent connector reference (an
`AttributeError`), before anything is sent. -/
theorem claim_C9_children_no_connector_check (c : Container) (env : EnvMap)
    (resp : Jsonv) (fresh : Addr) (a : Asset) (hdb : c._db = none)
    (hap : a._parent = none) (hadb : a._db = none) :
    Container.children c resp fresh = ⟨.error .attributeError, c, []⟩
    ∧ (Container.children c resp fresh).res ≠
        .error (.config "No database connector")
    ∧ (Container.parent c env resp fresh).res =
        .error (.config "No database connector")
    ∧ (Asset.parent a resp fresh).res =
        .error (.config "No database connector") := by
  have h1 : Container.children c resp fresh =
      ⟨.error .attributeError, c, []⟩ := by
    unfold Container.children
    rw [hdb]
  refine ⟨h1, ?_, ?_, ?_⟩
  · rw [h1]
    intro hcon
    exact PyError.noConfusion (Except.error.inj hcon)
  · unfold Container.parent
    rw [hdb]
  · unfold Asset.parent
    rw [hap, hadb]

/-- Concrete instantiation of claim C9 at a connector-free Container and
Asset. -/
theorem claim_C9_witness :
    Container.children orphanContainer Jsonv.null 0 =
      ⟨.error .attributeError, orphanContainer, []⟩
    ∧ (Container.children orphanContainer Jsonv.null 0).res ≠
        .error (.config "No database connector")
    ∧ (Container.parent orphanContainer liveEnv Jsonv.null 0).res =
        .error (.config "No database connector")
    ∧ (Asset.parent orphanAsset Jsonv.null 0).res =
        .error (.config "No database connector") :=
  claim_C9_children_no_connector_check orphanContainer liveEnv Jsonv.null 0
    orphanAsset rfl rfl rfl

/-- Claim C10 (implicit): only `assets()` detects a missing response (the
connector yielding `None`) and raises it as the Protocol error; in
`children()`, `Container.parent()` (in its remote branch) and
`Asset.parent()` a missing response is not caught by any check and fails on
the membership test against the absent response with a `TypeError`, and the
Protocol error is never produced by those three accessors on any input. -/
theorem claim_C10_protocol_error_only_assets :
    (∀ (c : Container) (db : Database) (env : EnvMap) (fresh : Addr),
      c._db = some db → dev_mode env = true →
      (Container.assets c env Jsonv.null fresh).res =
        .error (.protocolErr "Could not get Container"))
    ∧ (∀ (c : Container) (db : Database) (fresh : Addr),
      c._db = some db →
      (Container.children c Jsonv.null fresh).res = .error .typeError)
    ∧ (∀ (c : Container) (db : Database) (env : EnvMap) (fresh : Addr),
      c._db = some db → (c._parent_set = false ∨ dev_mode env = true) →
      pyEqStr c._rid db._root_id = false →
      (Container.parent c env Jsonv.null fresh).res = .error .typeError)
    ∧ (∀ (a : Asset) (db : Database) (fresh : Addr),
      a._parent = none → a._db = some db →
      (Asset.parent a Jsonv.null fresh).res = .error .typeError)
    ∧ (∀ (c : Container) (resp : Jsonv) (fresh : Addr),
      isProtocolRes (Container.children c resp fresh).res = false)
    ∧ (∀ (c : Container) (env : EnvMap) (resp : Jsonv) (fresh : Addr),
      isProtocolRes (Container.parent c env resp fresh).res = false)
    ∧ (∀ (a : Asset) (resp : Jsonv) (fresh : Addr),
      isProtocolRes (Asset.parent a resp fresh).res = false) := by
  refine ⟨?_, ?_, ?_, ?_, children_not_protocol, parent_not_protocol,
    asset_parent_not_protocol⟩
  · intro c db env fresh hdb hm
    unfold Container.assets
    rw [hdb]
    simp [hm, jsonIsNull]
  · intro c db fresh hdb
    unfold Container.children
    rw [hdb]
    rfl
  · intro c db env fresh hdb hnc hnr
    have hcond : (c._parent_set && !dev_mode env) = false := by
      rcases hnc with h1 | h1 <;> simp [h1]
    unfold Container.parent
    rw [hdb]
    simp [hcond, hnr, pyContains]
  · intro a db fresh hap hadb
    unfold Asset.parent
    rw [hap, hadb]
    rfl

/-- Concrete instantiations of claim C10: a null response raises the
Protocol error from `assets()` and a `TypeError` from `children()`,
`parent()` and `Asset.parent()`. -/
theorem claim_C10_witness :
    (Container.assets sampleResolved liveEnv Jsonv.null 0).res =
      .error (.protocolErr "Could not get Container") ∧
    (Container.children sampleResolved Jsonv.null 0).res =
      .error .typeError ∧
    (Container.parent sampleUnresolved liveEnv Jsonv.null 0).res =
      .error .typeError ∧
    (Asset.parent connectedAsset Jsonv.null 0).res = .error .typeError :=
  ⟨claim_C10_protocol_error_only_assets.1 sampleResolved sampleDb liveEnv 0
      rfl rfl,
   claim_C10_protocol_error_only_assets.2.1 sampleResolved sampleDb 0 rfl,
   claim_C10_protocol_error_only_assets.2.2.1 sampleUnresolved sampleDb
      liveEnv 0 rfl (Or.inr rfl) rfl,
   claim_C10_protocol_error_only_assets.2.2.2.1 connectedAsset sampleDb 0
      rfl rfl⟩

end Syre
